import Mathlib

set_option maxRecDepth 8000

/-!
Shallow embedding of the captive-portal service worker (revision v5 of the
interception worker script).  The worker classifies every intercepted GET
request into a traffic class and answers it with a per-class strategy over
two named cache stores (a static store seeded at install and a runtime
store populated lazily).  Definitions below are transcribed from the
worker source; theorems settle the specification claims about it.
-/

namespace WifiPortalSW

/-- Prefix test on character lists (executable helper for the JS string
operations below). -/
def charsLead : List Char → List Char → Bool
  | [], _ => true
  | _ :: _, [] => false
  | a :: as, b :: bs => a == b && charsLead as bs

/-- Occurrence test: does `sub` occur contiguously inside the second list? -/
def charsOccurs (sub : List Char) : List Char → Bool
  | [] => sub.isEmpty
  | b :: bs => charsLead sub (b :: bs) || charsOccurs sub bs

/-- JavaScript `String.prototype.startsWith`. -/
def strStartsWith (s pre : String) : Bool := charsLead pre.data s.data

/-- JavaScript `String.prototype.endsWith` (used here for the `$`-anchored
extension regex and the `.html` test). -/
def strEndsWith (s post : String) : Bool :=
  charsLead post.data.reverse s.data.reverse

/-- JavaScript `String.prototype.includes`: substring containment. -/
def jsIncludes (s sub : String) : Bool := charsOccurs sub.data s.data

/-- ASCII lower-casing of one character. -/
def asciiLowerChar (c : Char) : Char :=
  if 'A' ≤ c && c ≤ 'Z' then Char.ofNat (c.toNat + 32) else c

/-- ASCII lower-casing, used to model the case-insensitive header names of
the Fetch standard's header list. -/
def asciiLower (s : String) : String := ⟨s.data.map asciiLowerChar⟩

/-- A parsed URL, as the worker sees it via `new URL(request.url)`:
`protocol` keeps the trailing colon (e.g. `"http:"`), `params` is the list
of query (name, value) pairs backing `url.searchParams`. -/
structure URL where
  protocol : String
  hostname : String
  pathname : String
  params : List (String × String)
deriving DecidableEq, Repr

/-- Model of `url.searchParams.has(name)`. -/
def URL.searchParamsHas (u : URL) (name : String) : Bool :=
  u.params.any (fun p => p.1 == name)

/-- The raw query string `url.search`: empty when there are no parameters,
otherwise `?` followed by `name=value` pairs joined with `&`. -/
def URL.search (u : URL) : String :=
  if u.params.isEmpty then ""
  else "?" ++ String.intercalate "&" (u.params.map (fun p => p.1 ++ "=" ++ p.2))

/-- Model of `url.href`: the serialized absolute URL, used as the cache key of a
request. -/
def URL.href (u : URL) : String :=
  u.protocol ++ "//" ++ u.hostname ++ u.pathname ++ u.search

/-- An intercepted request: method, URL, and the `Accept` header
(`request.headers.get('accept')`, absent when the header is missing). -/
structure Request where
  method : String
  url : URL
  accept : Option String
deriving DecidableEq, Repr

/-- The cache key of a request (the Cache API keys entries by request URL). -/
def Request.key (r : Request) : String := r.url.href

/-- An HTTP response: body text, status code and header list. -/
structure Response where
  body : String
  status : Nat
  headers : List (String × String)
deriving DecidableEq, Repr

/-- The `Response` constructor of the Fetch standard, as the worker invokes
it with a string body: when the supplied headers carry no `Content-Type`,
the platform appends `text/plain;charset=UTF-8` (the extracted type of a
string body). -/
def mkResponse (body : String) (status : Nat)
    (headers : List (String × String)) : Response :=
  { body := body, status := status,
    headers :=
      if headers.any (fun h => asciiLower h.1 == "content-type") then headers
      else headers ++ [("Content-Type", "text/plain;charset=UTF-8")] }

/-- Case-insensitive header lookup, `response.headers.get(name)`. -/
def Response.getHeader (r : Response) (name : String) : Option String :=
  (r.headers.find? (fun h => asciiLower h.1 == asciiLower name)).map (·.2)

/-- Source constant `CACHE_NAME `, the version-tagged static store. -/
def CACHE_NAME : String := "wifi-portal-v5"

/-- Source constant `RUNTIME_CACHE `, the version-tagged
runtime store. -/
def RUNTIME_CACHE : String := "wifi-portal-runtime-v5"

/-- Source constant `STATIC_ASSETS = ['/', '/index.html']` — the fixed seed manifest. -/
def STATIC_ASSETS : List String := ["/", "/index.html"]

/-- Transcription of `isHotspotURL`: the path is exactly one of the fixed hotspot paths, or
the URL carries any of the fixed captive-portal query parameters. -/
def isHotspotURL (url : URL) : Bool :=
  let hotspotPaths : List String := ["/login", "/logout", "/status"]
  let isHotspotPath := hotspotPaths.contains url.pathname
  let hasHotspotParam :=
    url.searchParamsHas "dst" ||
    url.searchParamsHas "link-login" ||
    url.searchParamsHas "link-orig" ||
    url.searchParamsHas "link-logout" ||
    url.searchParamsHas "mac" ||
    url.searchParamsHas "id" ||
    url.searchParamsHas "username" ||
    url.searchParamsHas "client-mac-address"
  isHotspotPath || hasHotspotParam

/-- The seven fixed OS connectivity-probe domains of `isCaptiveProbe`. -/
def probeHosts : List String :=
  [ "msftconnecttest.com"
  , "msftncsi.com"
  , "captive.apple.com"
  , "connectivitycheck.gstatic.com"
  , "connectivitycheck.android.com"
  , "clients3.google.com"
  , "detectportal.firefox.com" ]

/-- Transcription of `isCaptiveProbe`: `probeHosts.some(host => url.hostname.includes(host))`
— substring containment against the hostname, not exact equality. -/
def isCaptiveProbe (url : URL) : Bool :=
  probeHosts.any (fun host => jsIncludes url.hostname host)

/-- The extension alternation of the static-asset test
`url.pathname.match(/\.(js|css|png|jpg|jpeg|svg|gif|webp|woff|woff2|ttf|eot|ico)$/)`. -/
def staticExtensions : List String :=
  ["js", "css", "png", "jpg", "jpeg", "svg", "gif", "webp",
   "woff", "woff2", "ttf", "eot", "ico"]

/-- The static-asset predicate of branch 4: the pathname ends in a dot plus
one of the fixed extensions, or starts with `/assets/`. -/
def isStaticAsset (url : URL) : Bool :=
  staticExtensions.any (fun ext => strEndsWith url.pathname ("." ++ ext)) ||
  strStartsWith url.pathname "/assets/"

/-- The HTML-document predicate of branch 5: the `Accept` header mentions
`text/html`, or the path is the root, or the path ends in `.html`. -/
def isHTMLRequest (req : Request) : Bool :=
  (match req.accept with
   | some a => jsIncludes a "text/html"
   | none => false) ||
  req.url.pathname == "/" ||
  strEndsWith req.url.pathname ".html"

/-- The closed set of traffic classes of the fetch handler's branches. -/
inductive TrafficClass where
  | ignored
  | hotspot
  | probe
  | api
  | staticAsset
  | htmlDoc
  | defaultClass
deriving DecidableEq, Repr

/-- The fetch handler's branch order, first match winning: the two early
returns (non-GET, non-http protocol), then hotspot, probe, `/api/`,
static asset, HTML document, default. -/
def classify (req : Request) : TrafficClass :=
  if req.method != "GET" then .ignored
  else if !strStartsWith req.url.protocol "http" then .ignored
  else if isHotspotURL req.url then .hotspot
  else if isCaptiveProbe req.url then .probe
  else if strStartsWith req.url.pathname "/api/" then .api
  else if isStaticAsset req.url then .staticAsset
  else if isHTMLRequest req then .htmlDoc
  else .defaultClass

/-- A named cache store: URL-keyed response entries, `put` overwriting. -/
def CacheStore := List (String × Response)

instance : DecidableEq CacheStore := by
  unfold CacheStore; infer_instance

/-- Model of `cache.put(key, response)`: overwrite-by-key insertion. -/
def cachePut (c : CacheStore) (key : String) (r : Response) : CacheStore :=
  (key, r) :: (c : List (String × Response)).filter (fun e => e.1 != key)

/-- Lookup of one store by exact URL key. -/
def cacheGet (c : CacheStore) (key : String) : Option Response :=
  ((c : List (String × Response)).find? (fun e => e.1 == key)).map (·.2)

/-- The worker's two stores: the static store (`CACHE_NAME`, seeded at
install) and the runtime store (`RUNTIME_CACHE`, populated during fetch). -/
structure CacheState where
  staticStore : CacheStore
  runtimeStore : CacheStore
deriving DecidableEq

/-- Model of `caches.match(key)`: searches every store, the static store (created
first) before the runtime store. -/
def cachesMatch (st : CacheState) (key : String) : Option Response :=
  match cacheGet st.staticStore key with
  | some r => some r
  | none => cacheGet st.runtimeStore key

/-- Outcome of a network fetch: a response, or a rejection carrying
`error.message`. -/
inductive NetResult where
  | ok (r : Response)
  | err (msg : String)
deriving DecidableEq, Repr

/-- What one `fetch` event produced: the response passed to `respondWith`,
the cache state afterwards, and whether the network was consulted. -/
structure FetchOutcome where
  response : Response
  state : CacheState
  networkUsed : Bool
deriving DecidableEq

/-- The synthesized "loading" HTML document the hotspot branch returns when
both the network and the cached index are unavailable.  The full markup
(inline CSS, spinner, parameter echo and self-reload script) is
abbreviated to its visible text: no claim inspects the body markup, only
the status and headers attached to it. -/
def fallbackLoadingHTML : String :=
  "<!DOCTYPE html><html><head><meta charset=\"UTF-8\"><title>WiFi Portal Loading...</title></head><body><h2>Loading WiFi Portal</h2><p>Please wait while we set up your connection...</p></body></html>"

/-- The synthesized loading response of the hotspot branch: status 200 with
html content type and a no-cache cache-control header. -/
def hotspotFallbackResponse : Response :=
  mkResponse fallbackLoadingHTML 200
    [ ("Content-Type", "text/html; charset=utf-8")
    , ("Cache-Control", "no-cache, no-store, must-revalidate") ]

/-- The JSON error envelope of the API branch
(`JSON.stringify({success:false, error, details, url})`). -/
def apiErrorBody (msg href : String) : String :=
  "\x7b\"success\":false,\"error\":\"Cannot connect to backend server\",\"details\":\"" ++
    msg ++ "\",\"url\":\"" ++ href ++ "\"\x7d"

/-- Branch 1, hotspot URLs: network first; on failure the cached
`/index.html` if present (a clone of it), else the synthesized loading
page.  Never writes a store. -/
def hotspotStrategy (net : NetResult) (st : CacheState) : FetchOutcome :=
  match net with
  | .ok r => ⟨r, st, true⟩
  | .err _ =>
    match cachesMatch st "/index.html" with
    | some cached => ⟨cached, st, true⟩
    | none => ⟨hotspotFallbackResponse, st, true⟩

/-- Branch 2, OS probes: network only; on failure
`new Response('', { status: 503 })`. -/
def probeStrategy (net : NetResult) (st : CacheState) : FetchOutcome :=
  match net with
  | .ok r => ⟨r, st, true⟩
  | .err _ => ⟨mkResponse "" 503 [], st, true⟩

/-- Branch 3, API calls: network only; on failure a JSON error envelope
with status 503. -/
def apiStrategy (req : Request) (net : NetResult) (st : CacheState) :
    FetchOutcome :=
  match net with
  | .ok r => ⟨r, st, true⟩
  | .err msg =>
    ⟨mkResponse (apiErrorBody msg req.url.href) 503
      [("Content-Type", "application/json")], st, true⟩

/-- Branch 4, static assets: cache first (no network on a hit); on a miss
fetch, writing a status-200 response into the runtime store; on fetch
failure a textual 503. -/
def staticAssetStrategy (req : Request) (net : NetResult) (st : CacheState) :
    FetchOutcome :=
  match cachesMatch st req.key with
  | some cached => ⟨cached, st, false⟩
  | none =>
    match net with
    | .ok r =>
      if r.status == 200 then
        ⟨r, { st with runtimeStore := cachePut st.runtimeStore req.key r }, true⟩
      else ⟨r, st, true⟩
    | .err _ => ⟨mkResponse "Asset unavailable" 503 [], st, true⟩

/-- Branch 5, HTML pages: network first, writing a status-200 response into
the runtime store; on failure the cached match for this request, else the
cached `/index.html`, else a synthesized offline page. -/
def htmlStrategy (req : Request) (net : NetResult) (st : CacheState) :
    FetchOutcome :=
  match net with
  | .ok r =>
    if r.status == 200 then
      ⟨r, { st with runtimeStore := cachePut st.runtimeStore req.key r }, true⟩
    else ⟨r, st, true⟩
  | .err _ =>
    match cachesMatch st req.key with
    | some cached => ⟨cached, st, true⟩
    | none =>
      match cachesMatch st "/index.html" with
      | some cached => ⟨cached, st, true⟩
      | none =>
        ⟨mkResponse "<html><body><p>Offline</p></body></html>" 200
          [("Content-Type", "text/html")], st, true⟩

/-- Branch 6, default: network first, writing a status-200 response into
the runtime store; on failure the cached match, else an empty 503. -/
def defaultStrategy (req : Request) (net : NetResult) (st : CacheState) :
    FetchOutcome :=
  match net with
  | .ok r =>
    if r.status == 200 then
      ⟨r, { st with runtimeStore := cachePut st.runtimeStore req.key r }, true⟩
    else ⟨r, st, true⟩
  | .err _ =>
    match cachesMatch st req.key with
    | some cached => ⟨cached, st, true⟩
    | none => ⟨mkResponse "" 503 [], st, true⟩

/-- The fetch handler: `none` when the handler returns without calling
`respondWith` (the request falls through to the browser), otherwise the
outcome of the strategy of the request's class. -/
def handleFetch (req : Request) (net : NetResult) (st : CacheState) :
    Option FetchOutcome :=
  match classify req with
  | .ignored => none
  | .hotspot => some (hotspotStrategy net st)
  | .probe => some (probeStrategy net st)
  | .api => some (apiStrategy req net st)
  | .staticAsset => some (staticAssetStrategy req net st)
  | .htmlDoc => some (htmlStrategy req net st)
  | .defaultClass => some (defaultStrategy req net st)

/-- Result of the install handler's `waitUntil` promise chain. -/
structure InstallResult where
  state : CacheState
  /-- whether `self.skipWaiting()` was invoked -/
  skipWaiting : Bool
  /-- whether the trailing `.catch` logged an install error -/
  loggedError : Bool
deriving DecidableEq

/-- The install handler:
`caches.open(CACHE_NAME).then(cache => cache.addAll(STATIC_ASSETS))
.then(() => self.skipWaiting()).catch(error => console.error(...))`.
`seedOk` is whether opening the static store and fetching/storing every
seed asset succeeded; `fetched` gives the response `addAll` obtained for
each asset URL.  When seeding fails the rejection skips the
`skipWaiting` step and lands in the final `.catch`, which logs and
resolves, so install completes either way. -/
def installHandler (seedOk : Bool) (fetched : String → Response)
    (st : CacheState) : InstallResult :=
  if seedOk then
    { state := { st with
        staticStore :=
          STATIC_ASSETS.foldl (fun c a => cachePut c a (fetched a))
            st.staticStore }
      skipWaiting := true
      loggedError := false }
  else
    { state := st, skipWaiting := false, loggedError := true }

/-- The activate handler's cache cleanup: of the enumerated store names,
every name that is neither `CACHE_NAME` nor `RUNTIME_CACHE` is deleted;
the survivors are returned. -/
def activateHandler (names : List String) : List String :=
  names.filter (fun n => !(n != CACHE_NAME && n != RUNTIME_CACHE))

/-! Concrete inputs used by witnesses and counterexamples. -/

/-- The empty cache state (no store holds any entry). -/
def emptyCaches : CacheState := ⟨[], []⟩

/-- A GET navigation to `/login?dst=http%3A%2F%2Fexample.com`, the login
redirect the captive gateway issues. -/
def loginDstRequest : Request :=
  ⟨"GET", ⟨"http:", "portal.local", "/login",
    [("dst", "http%3A%2F%2Fexample.com")]⟩, some "text/html"⟩

/-- A GET navigation to `/status?dst=http%3A%2F%2Fexample.com`. -/
def statusDstRequest : Request :=
  ⟨"GET", ⟨"http:", "portal.local", "/status",
    [("dst", "http%3A%2F%2Fexample.com")]⟩, some "text/html"⟩

/-- A GET navigation to `/login.html` with no query parameters. -/
def loginHtmlRequest : Request :=
  ⟨"GET", ⟨"http:", "portal.local", "/login.html", []⟩, some "text/html"⟩

/-- A GET navigation to `/login.html?dst=x` (a hotspot parameter present). -/
def loginHtmlDstRequest : Request :=
  ⟨"GET", ⟨"http:", "portal.local", "/login.html", [("dst", "x")]⟩,
    some "text/html"⟩

/-- A GET request whose hostname contains the probe domain `msftncsi.com`
as a proper substring without being equal to any probe domain. -/
def evilProbeRequest : Request :=
  ⟨"GET", ⟨"http:", "msftncsi.com.evil.example", "/ncsi.txt", []⟩, none⟩

/-- A GET request for a fingerprinted bundle under `/assets/`. -/
def assetRequest : Request :=
  ⟨"GET", ⟨"http:", "portal.local", "/assets/app-abc123.js", []⟩, none⟩

/-- A GET request to `/api/payments/status`. -/
def apiRequest : Request :=
  ⟨"GET", ⟨"http:", "portal.local", "/api/payments/status", []⟩, none⟩

/-- A GET request whose URL scheme is `httpfake:` — neither HTTP nor HTTPS,
yet its protocol string starts with `http`. -/
def weirdSchemeRequest : Request :=
  ⟨"GET", ⟨"httpfake:", "x.example", "/p", []⟩, none⟩

/-- A POST request (non-GET method). -/
def postRequest : Request :=
  ⟨"POST", ⟨"http:", "portal.local", "/api/payments", []⟩, none⟩

/-- A plain 200 network response. -/
def plainOkResponse : Response :=
  mkResponse "ok" 200 [("Content-Type", "text/plain")]

/-- A 200 JavaScript response as the network would return for a bundle. -/
def assetOkResponse : Response :=
  mkResponse "console.log(1)" 200 [("Content-Type", "text/javascript")]

/-- A concrete assignment of seed-asset responses used by install witnesses. -/
def seedFetched : String → Response :=
  fun _ => mkResponse "<html></html>" 200 [("Content-Type", "text/html")]

/-! Helper lemmas about the store primitives and the strategies. -/

/-- Reading back the key just written returns the written response. -/
theorem cacheGet_cachePut_self (c : CacheStore) (k : String) (r : Response) :
    cacheGet (cachePut c k r) k = some r := by
  simp [cacheGet, cachePut]

/-- Writing one key leaves every other key's entry unchanged. -/
theorem cacheGet_cachePut_ne (c : CacheStore) (k k' : String) (r : Response)
    (h : k ≠ k') : cacheGet (cachePut c k r) k' = cacheGet c k' := by
  have hk : ((k, r).1 == k') = false := by simp [h]
  unfold cacheGet cachePut
  congr 1
  rw [List.find?_cons_of_neg _ (by simp [hk])]
  induction c with
  | nil => simp
  | cons e es ih =>
    by_cases he : e.1 = k
    · rw [List.filter_cons, if_neg (by simp [he]),
        List.find?_cons_of_neg _ (by simp [he, h]), ih]
    · rw [List.filter_cons, if_pos (by simp [he])]
      by_cases he' : e.1 = k'
      · rw [List.find?_cons_of_pos _ (by simp [he']),
          List.find?_cons_of_pos _ (by simp [he'])]
      · rw [List.find?_cons_of_neg _ (by simp [he']),
          List.find?_cons_of_neg _ (by simp [he']), ih]

/-- Case split of a read against a store after one write. -/
theorem cacheGet_cachePut (c : CacheStore) (k k' : String) (r : Response) :
    cacheGet (cachePut c k r) k' =
      if k' = k then some r else cacheGet c k' := by
  by_cases h : k' = k
  · subst h; simp [cacheGet_cachePut_self]
  · simp [h, cacheGet_cachePut_ne c k k' r (Ne.symm h)]

/-- The empty cache state answers no lookup. -/
theorem cachesMatch_empty (k : String) : cachesMatch emptyCaches k = none := rfl

/-- The hotspot strategy never changes the cache state. -/
theorem hotspotStrategy_state (net : NetResult) (st : CacheState) :
    (hotspotStrategy net st).state = st := by
  cases net with
  | ok r => rfl
  | err m =>
    unfold hotspotStrategy
    cases cachesMatch st "/index.html" <;> rfl

/-- The probe strategy never changes the cache state. -/
theorem probeStrategy_state (net : NetResult) (st : CacheState) :
    (probeStrategy net st).state = st := by
  cases net <;> rfl

/-- The API strategy never changes the cache state. -/
theorem apiStrategy_state (req : Request) (net : NetResult) (st : CacheState) :
    (apiStrategy req net st).state = st := by
  cases net <;> rfl

/-- A response constructed by the worker always carries a content type:
either one of the supplied headers names it, or the platform appended
`text/plain;charset=UTF-8`. -/
theorem mkResponse_getHeader_contentType (body : String) (status : Nat)
    (headers : List (String × String)) :
    ∃ v, (mkResponse body status headers).getHeader "Content-Type" = some v := by
  have hlow : asciiLower "Content-Type" = "content-type" := by decide
  unfold mkResponse Response.getHeader
  rw [hlow]
  by_cases h : headers.any (fun h => asciiLower h.1 == "content-type") = true
  · simp only [h, if_true]
    have hs : (headers.find? (fun h => asciiLower h.1 == "content-type")).isSome := by
      rw [List.find?_isSome]
      exact List.any_eq_true.mp h
    obtain ⟨e', he'⟩ := Option.isSome_iff_exists.mp hs
    exact ⟨e'.2, by simp [he']⟩
  · rw [if_neg h]
    refine ⟨"text/plain;charset=UTF-8", ?_⟩
    have hnone : headers.find? (fun h => asciiLower h.1 == "content-type") = none := by
      rw [List.find?_eq_none]
      intro x hx hpx
      exact h (List.any_eq_true.mpr ⟨x, hx, hpx⟩)
    rw [List.find?_append, hnone]
    simp [List.find?, hlow]

/-! Claim theorems. -/

/-- C1: for every intercepted GET request classified captive-portal-login
(hotspot), OS-connectivity-probe, or backend-API-call, the fetch handler
never writes an entry into the static store or the runtime store,
regardless of whether the network fetch succeeds or fails: the cache state
of the outcome is exactly the input cache state. -/
theorem C1_sensitive_classes_never_cached (req : Request) (net : NetResult)
    (st : CacheState) (out : FetchOutcome)
    (hclass : classify req = TrafficClass.hotspot ∨
      classify req = TrafficClass.probe ∨ classify req = TrafficClass.api)
    (hout : handleFetch req net st = some out) :
    out.state = st := by
  unfold handleFetch at hout
  rcases hclass with h | h | h
  · rw [h] at hout; cases hout; exact hotspotStrategy_state net st
  · rw [h] at hout; cases hout; exact probeStrategy_state net st
  · rw [h] at hout; cases hout; exact apiStrategy_state req net st

/-- C1 witness: the login redirect with the network down is answered from
the synthesized loading page and leaves the empty cache state empty. -/
theorem C1_witness :
    (⟨hotspotFallbackResponse, emptyCaches, true⟩ : FetchOutcome).state =
      emptyCaches :=
  C1_sensitive_classes_never_cached loginDstRequest (.err "net down")
    emptyCaches ⟨hotspotFallbackResponse, emptyCaches, true⟩
    (Or.inl (by decide)) (by decide)

/-- C2 counterexample: `/login.html` with no query parameters is classified
HTML-document, not captive-portal-login — its path is not exactly one of
the three login paths and it carries no hotspot query parameter, so the
hotspot branch does not match and the request reaches the HTML branch. -/
theorem C2_counterexample :
    classify loginHtmlRequest = TrafficClass.htmlDoc ∧
    classify loginHtmlRequest ≠ TrafficClass.hotspot := by decide

/-- C2 amended: classification is first-match-wins in branch order: a GET
to `/status?dst=…` is classified captive-portal-login, not HTML-document,
even though it also satisfies the HTML-document predicate; `/login.html`
without a hotspot query parameter resolves to the HTML-document class, and
resolves to captive-portal-login exactly when it carries a hotspot query
parameter such as `dst`. -/
theorem C2_amended_priority_order :
    (classify statusDstRequest = TrafficClass.hotspot ∧
      isHTMLRequest statusDstRequest = true) ∧
    classify loginHtmlRequest = TrafficClass.htmlDoc ∧
    classify loginHtmlDstRequest = TrafficClass.hotspot := by decide

/-- C3 counterexample: when seeding fails, install completes with the
error logged, but skip-waiting is NOT signalled: the rejection of
`cache.addAll` skips the `skipWaiting` step of the promise chain and lands
in the final catch, refuting the claim that skip-waiting is signalled in
every case. -/
theorem C3_counterexample :
    (installHandler false seedFetched emptyCaches).loggedError = true ∧
    (installHandler false seedFetched emptyCaches).skipWaiting = false := by
  decide

/-- C3 amended: during install the worker seeds the static store with the
fixed manifest and then signals skip-waiting when seeding succeeds; on any
seed failure the error is logged and install still completes without
crashing, but skip-waiting is then not signalled — it is signalled exactly
when seeding succeeds. -/
theorem C3_amended_install (seedOk : Bool) (fetched : String → Response)
    (st : CacheState) :
    (installHandler seedOk fetched st).skipWaiting = seedOk ∧
    (installHandler seedOk fetched st).loggedError = !seedOk ∧
    (installHandler seedOk fetched st).state.runtimeStore = st.runtimeStore ∧
    (seedOk = true → ∀ a ∈ STATIC_ASSETS,
      cacheGet (installHandler seedOk fetched st).state.staticStore a =
        some (fetched a)) ∧
    (seedOk = false → (installHandler seedOk fetched st).state = st) := by
  cases seedOk with
  | false => simp [installHandler]
  | true =>
    refine ⟨rfl, rfl, rfl, ?_, by simp⟩
    intro _ a ha
    have hfold : (installHandler true fetched st).state.staticStore =
        cachePut (cachePut st.staticStore "/" (fetched "/")) "/index.html"
          (fetched "/index.html") := rfl
    rw [hfold]
    simp only [STATIC_ASSETS, List.mem_cons, List.not_mem_nil, or_false]
      at ha
    rcases ha with rfl | rfl
    · rw [cacheGet_cachePut_ne _ _ _ _ (by decide), cacheGet_cachePut_self]
    · rw [cacheGet_cachePut_self]

/-- C3 amended witness: a successful install at the empty cache state
signals skip-waiting and has seeded `/index.html` into the static store. -/
theorem C3_amended_witness :
    (installHandler true seedFetched emptyCaches).skipWaiting = true ∧
    cacheGet (installHandler true seedFetched emptyCaches).state.staticStore
      "/index.html" = some (seedFetched "/index.html") :=
  ⟨(C3_amended_install true seedFetched emptyCaches).1,
   (C3_amended_install true seedFetched emptyCaches).2.2.2.1 rfl
     "/index.html" (by decide)⟩

/-- C7: after the activate cleanup, a store name survives the enumeration
iff it was present before and is exactly one of the two current
version-tagged names; every other store is absent and the two current
stores are preserved. -/
theorem C7_activate_version_rollover (names : List String) (n : String) :
    n ∈ activateHandler names ↔
      n ∈ names ∧ (n = CACHE_NAME ∨ n = RUNTIME_CACHE) := by
  unfold activateHandler
  rw [List.mem_filter]
  constructor
  · rintro ⟨hmem, hcond⟩
    refine ⟨hmem, ?_⟩
    by_contra hc
    push_neg at hc
    simp [hc.1, hc.2] at hcond
  · rintro ⟨hmem, hcond⟩
    refine ⟨hmem, ?_⟩
    rcases hcond with rfl | rfl <;> simp

/-- C9 counterexample: a GET request with URL scheme `httpfake:` — neither
HTTP nor HTTPS — is nonetheless answered by the fetch handler, because the
guard only tests that the protocol string starts with `http`; this refutes
the claim that every non-HTTP(S) request falls through untouched. -/
theorem C9_counterexample :
    weirdSchemeRequest.url.protocol ≠ "http:" ∧
    weirdSchemeRequest.url.protocol ≠ "https:" ∧
    weirdSchemeRequest.method = "GET" ∧
    handleFetch weirdSchemeRequest (.ok plainOkResponse) emptyCaches ≠
      none := by decide

/-- C9 amended: for every intercepted request whose method is not GET, or
whose URL protocol does not start with `http`, the fetch handler does not
call respondWith — it yields no outcome, so no response is produced and no
cache store is read or written for the request. -/
theorem C9_amended_passthrough (req : Request) (net : NetResult)
    (st : CacheState)
    (h : req.method ≠ "GET" ∨ strStartsWith req.url.protocol "http" = false) :
    handleFetch req net st = none := by
  have hc : classify req = TrafficClass.ignored := by
    rcases h with h | h
    · have hb : (req.method != "GET") = true := by simpa [bne_iff_ne] using h
      simp [classify, hb]
    · by_cases hm : (req.method != "GET") = true
      · simp [classify, hm]
      · simp [classify, hm, h]
  simp [handleFetch, hc]

/-- C9 amended witness: a POST request is not answered by the handler. -/
theorem C9_amended_witness :
    handleFetch postRequest (.ok plainOkResponse) emptyCaches = none :=
  C9_amended_passthrough postRequest (.ok plainOkResponse) emptyCaches
    (Or.inl (by decide))

/-- The HTML strategy leaves the cache state unchanged when the network
fetch fails. -/
theorem htmlStrategy_state_err (req : Request) (msg : String)
    (st : CacheState) : (htmlStrategy req (.err msg) st).state = st := by
  unfold htmlStrategy
  cases cachesMatch st req.key with
  | some c => rfl
  | none => cases cachesMatch st "/index.html" <;> rfl

/-- The default strategy leaves the cache state unchanged when the network
fetch fails. -/
theorem defaultStrategy_state_err (req : Request) (msg : String)
    (st : CacheState) : (defaultStrategy req (.err msg) st).state = st := by
  unfold defaultStrategy
  cases cachesMatch st req.key <;> rfl

/-- One write to a store changes at most the entry of the written key, to
exactly the written response. -/
theorem cachePut_pointwise (c : CacheStore) (key : String) (r : Response)
    (k : String) :
    cacheGet (cachePut c key r) k = cacheGet c k ∨
      (k = key ∧ cacheGet (cachePut c key r) k = some r) := by
  rcases eq_or_ne k key with rfl | h
  · exact Or.inr ⟨rfl, cacheGet_cachePut_self _ _ _⟩
  · exact Or.inl (cacheGet_cachePut_ne _ _ _ _ (Ne.symm h))

/-- C4: for every request the worker answers, when the network fetch fails
and both cache stores are empty, the handler still returns an outcome
whose response has a defined status code (200 or 503) and carries a
`Content-Type` header (explicit for the HTML/JSON fallbacks, appended as
`text/plain;charset=UTF-8` by the Response constructor for the textual and
empty bodies) — never an unhandled exception or undefined result. -/
theorem C4_total_failure_wellformed (req : Request) (msg : String)
    (out : FetchOutcome)
    (hout : handleFetch req (.err msg) emptyCaches = some out) :
    (out.response.status = 200 ∨ out.response.status = 503) ∧
    ∃ v, out.response.getHeader "Content-Type" = some v := by
  unfold handleFetch at hout
  cases hc : classify req with
  | ignored => rw [hc] at hout; cases hout
  | hotspot =>
    rw [hc] at hout; cases hout
    exact ⟨Or.inl rfl, ⟨"text/html; charset=utf-8", rfl⟩⟩
  | probe =>
    rw [hc] at hout; cases hout
    exact ⟨Or.inr rfl, mkResponse_getHeader_contentType "" 503 []⟩
  | api =>
    rw [hc] at hout; cases hout
    exact ⟨Or.inr rfl,
      mkResponse_getHeader_contentType (apiErrorBody msg req.url.href) 503
        [("Content-Type", "application/json")]⟩
  | staticAsset =>
    rw [hc] at hout; cases hout
    exact ⟨Or.inr rfl,
      mkResponse_getHeader_contentType "Asset unavailable" 503 []⟩
  | htmlDoc =>
    rw [hc] at hout; cases hout
    exact ⟨Or.inl rfl,
      mkResponse_getHeader_contentType
        "<html><body><p>Offline</p></body></html>" 200
        [("Content-Type", "text/html")]⟩
  | defaultClass =>
    rw [hc] at hout; cases hout
    exact ⟨Or.inr rfl, mkResponse_getHeader_contentType "" 503 []⟩

/-- C4 witness: an API call with the network down and empty caches is
answered by the JSON error envelope, a well-formed 503. -/
theorem C4_witness :
    ((⟨mkResponse (apiErrorBody "down" apiRequest.url.href) 503
        [("Content-Type", "application/json")], emptyCaches, true⟩ :
      FetchOutcome).response.status = 200 ∨
     (⟨mkResponse (apiErrorBody "down" apiRequest.url.href) 503
        [("Content-Type", "application/json")], emptyCaches, true⟩ :
      FetchOutcome).response.status = 503) ∧
    ∃ v, (⟨mkResponse (apiErrorBody "down" apiRequest.url.href) 503
        [("Content-Type", "application/json")], emptyCaches, true⟩ :
      FetchOutcome).response.getHeader "Content-Type" = some v :=
  C4_total_failure_wellformed apiRequest "down"
    ⟨mkResponse (apiErrorBody "down" apiRequest.url.href) 503
      [("Content-Type", "application/json")], emptyCaches, true⟩ (by decide)

/-- C5: for GET `/login?dst=http%3A%2F%2Fexample.com`: with the network
reachable the network response is returned verbatim with no cache write;
with the network unreachable the cached `/index.html` is returned when
present, and otherwise the synthesized loading page is returned with
status 200 and a `Cache-Control` header carrying the `no-cache`
directive. -/
theorem C5_login_redirect_scenario (st : CacheState) (r : Response)
    (msg : String) :
    handleFetch loginDstRequest (.ok r) st = some ⟨r, st, true⟩ ∧
    (∀ c, cachesMatch st "/index.html" = some c →
      handleFetch loginDstRequest (.err msg) st = some ⟨c, st, true⟩) ∧
    (cachesMatch st "/index.html" = none →
      handleFetch loginDstRequest (.err msg) st =
        some ⟨hotspotFallbackResponse, st, true⟩ ∧
      hotspotFallbackResponse.status = 200 ∧
      ∃ v, hotspotFallbackResponse.getHeader "Cache-Control" = some v ∧
        jsIncludes v "no-cache" = true) := by
  have hc : classify loginDstRequest = TrafficClass.hotspot := by decide
  refine ⟨?_, ?_, ?_⟩
  · simp [handleFetch, hc, hotspotStrategy]
  · intro c hcached
    simp [handleFetch, hc, hotspotStrategy, hcached]
  · intro hnone
    refine ⟨by simp [handleFetch, hc, hotspotStrategy, hnone], rfl,
      "no-cache, no-store, must-revalidate", by decide, by decide⟩

/-- C5 witness: all three outcomes at concrete cache states — network up
(verbatim, no write), network down with `/index.html` seeded (cached index
served), network down with empty caches (synthesized loading page with
status 200 and a no-cache directive). -/
theorem C5_witness :
    handleFetch loginDstRequest (.ok plainOkResponse) emptyCaches =
      some ⟨plainOkResponse, emptyCaches, true⟩ ∧
    handleFetch loginDstRequest (.err "down")
      ⟨[("/index.html", seedFetched "/index.html")], []⟩ =
      some ⟨seedFetched "/index.html",
        ⟨[("/index.html", seedFetched "/index.html")], []⟩, true⟩ ∧
    (handleFetch loginDstRequest (.err "down") emptyCaches =
      some ⟨hotspotFallbackResponse, emptyCaches, true⟩ ∧
     hotspotFallbackResponse.status = 200 ∧
     ∃ v, hotspotFallbackResponse.getHeader "Cache-Control" = some v ∧
       jsIncludes v "no-cache" = true) :=
  ⟨(C5_login_redirect_scenario emptyCaches plainOkResponse "down").1,
   (C5_login_redirect_scenario
      ⟨[("/index.html", seedFetched "/index.html")], []⟩ plainOkResponse
      "down").2.1 (seedFetched "/index.html") (by decide),
   (C5_login_redirect_scenario emptyCaches plainOkResponse "down").2.2 rfl⟩

/-- C6: for a static-asset request, once a successful (200) fetch for the
exact URL has been stored — the first conjunct shows a cache miss plus a
200 network response writes the entry — a subsequent request for the same
URL is answered from the cache with `networkUsed = false`: it never
triggers a network fetch, whatever the network would do. -/
theorem C6_static_cache_first (req : Request) (st : CacheState)
    (r : Response)
    (hclass : classify req = TrafficClass.staticAsset)
    (hmiss : cachesMatch st req.key = none)
    (h200 : r.status = 200) :
    handleFetch req (.ok r) st =
      some ⟨r, { st with runtimeStore := cachePut st.runtimeStore req.key r },
        true⟩ ∧
    ∀ net, handleFetch req net
        { st with runtimeStore := cachePut st.runtimeStore req.key r } =
      some ⟨r, { st with runtimeStore := cachePut st.runtimeStore req.key r },
        false⟩ := by
  have hsome : cachesMatch
      { st with runtimeStore := cachePut st.runtimeStore req.key r }
      req.key = some r := by
    unfold cachesMatch at hmiss ⊢
    cases hs : cacheGet st.staticStore req.key with
    | some v => rw [hs] at hmiss; cases hmiss
    | none => exact cacheGet_cachePut_self _ _ _
  constructor
  · simp [handleFetch, hclass, staticAssetStrategy, hmiss, h200]
  · intro net
    simp [handleFetch, hclass, staticAssetStrategy, hsome]

/-- C6 witness: the fingerprinted bundle is stored by its first successful
fetch and the second request is served from the cache without consulting
the (now unreachable) network. -/
theorem C6_witness :
    handleFetch assetRequest (.ok assetOkResponse) emptyCaches =
      some ⟨assetOkResponse,
        { emptyCaches with
            runtimeStore :=
              cachePut emptyCaches.runtimeStore assetRequest.key
                assetOkResponse }, true⟩ ∧
    handleFetch assetRequest (.err "down")
      { emptyCaches with
          runtimeStore :=
            cachePut emptyCaches.runtimeStore assetRequest.key
              assetOkResponse } =
      some ⟨assetOkResponse,
        { emptyCaches with
            runtimeStore :=
              cachePut emptyCaches.runtimeStore assetRequest.key
                assetOkResponse }, false⟩ :=
  ⟨(C6_static_cache_first assetRequest emptyCaches assetOkResponse
      (by decide) (by decide) (by decide)).1,
   (C6_static_cache_first assetRequest emptyCaches assetOkResponse
      (by decide) (by decide) (by decide)).2 (.err "down")⟩

/-- C8: every fetch handling preserves the cached-response invariant: the
static store is never touched, and the runtime store changes at most at
the request's own key, which then holds exactly the network response of a
successful (status 200) fetch — entries of other keys read unchanged, so
nothing is evicted and an existing entry is only ever overwritten by a
newer successful fetch for its URL. -/
theorem C8_runtime_store_invariant (req : Request) (net : NetResult)
    (st : CacheState) (out : FetchOutcome)
    (hout : handleFetch req net st = some out) :
    out.state.staticStore = st.staticStore ∧
    ∀ k, cacheGet out.state.runtimeStore k = cacheGet st.runtimeStore k ∨
      (k = req.key ∧ ∃ r, net = NetResult.ok r ∧ r.status = 200 ∧
        cacheGet out.state.runtimeStore k = some r) := by
  unfold handleFetch at hout
  cases hc : classify req with
  | ignored => rw [hc] at hout; cases hout
  | hotspot =>
    rw [hc] at hout; cases hout
    rw [hotspotStrategy_state net st]
    exact ⟨rfl, fun k => Or.inl rfl⟩
  | probe =>
    rw [hc] at hout; cases hout
    rw [probeStrategy_state net st]
    exact ⟨rfl, fun k => Or.inl rfl⟩
  | api =>
    rw [hc] at hout; cases hout
    rw [apiStrategy_state req net st]
    exact ⟨rfl, fun k => Or.inl rfl⟩
  | staticAsset =>
    rw [hc] at hout; cases hout
    cases hm : cachesMatch st req.key with
    | some c =>
      have hred : staticAssetStrategy req net st = ⟨c, st, false⟩ := by
        simp only [staticAssetStrategy, hm]
      rw [hred]
      exact ⟨rfl, fun k => Or.inl rfl⟩
    | none =>
      cases net with
      | err m =>
        have hred : staticAssetStrategy req (.err m) st =
            ⟨mkResponse "Asset unavailable" 503 [], st, true⟩ := by
          simp only [staticAssetStrategy, hm]
        rw [hred]
        exact ⟨rfl, fun k => Or.inl rfl⟩
      | ok r =>
        cases h200 : (r.status == 200) with
        | true =>
          have hred : staticAssetStrategy req (.ok r) st =
              ⟨r, { st with
                runtimeStore := cachePut st.runtimeStore req.key r },
                true⟩ := by
            simp only [staticAssetStrategy, hm, h200, if_true]
          rw [hred]
          refine ⟨rfl, fun k => ?_⟩
          rcases cachePut_pointwise st.runtimeStore req.key r k with h | h
          · exact Or.inl h
          · exact Or.inr ⟨h.1, r, rfl, by simpa using h200, h.2⟩
        | false =>
          have hred : staticAssetStrategy req (.ok r) st = ⟨r, st, true⟩ := by
            simp only [staticAssetStrategy, hm, h200, Bool.false_eq_true,
              if_false]
          rw [hred]
          exact ⟨rfl, fun k => Or.inl rfl⟩
  | htmlDoc =>
    rw [hc] at hout; cases hout
    cases net with
    | err m =>
      rw [htmlStrategy_state_err req m st]
      exact ⟨rfl, fun k => Or.inl rfl⟩
    | ok r =>
      cases h200 : (r.status == 200) with
      | true =>
        have hred : htmlStrategy req (.ok r) st =
            ⟨r, { st with
              runtimeStore := cachePut st.runtimeStore req.key r }, true⟩ := by
          simp only [htmlStrategy, h200, if_true]
        rw [hred]
        refine ⟨rfl, fun k => ?_⟩
        rcases cachePut_pointwise st.runtimeStore req.key r k with h | h
        · exact Or.inl h
        · exact Or.inr ⟨h.1, r, rfl, by simpa using h200, h.2⟩
      | false =>
        have hred : htmlStrategy req (.ok r) st = ⟨r, st, true⟩ := by
          simp only [htmlStrategy, h200, Bool.false_eq_true, if_false]
        rw [hred]
        exact ⟨rfl, fun k => Or.inl rfl⟩
  | defaultClass =>
    rw [hc] at hout; cases hout
    cases net with
    | err m =>
      rw [defaultStrategy_state_err req m st]
      exact ⟨rfl, fun k => Or.inl rfl⟩
    | ok r =>
      cases h200 : (r.status == 200) with
      | true =>
        have hred : defaultStrategy req (.ok r) st =
            ⟨r, { st with
              runtimeStore := cachePut st.runtimeStore req.key r }, true⟩ := by
          simp only [defaultStrategy, h200, if_true]
        rw [hred]
        refine ⟨rfl, fun k => ?_⟩
        rcases cachePut_pointwise st.runtimeStore req.key r k with h | h
        · exact Or.inl h
        · exact Or.inr ⟨h.1, r, rfl, by simpa using h200, h.2⟩
      | false =>
        have hred : defaultStrategy req (.ok r) st = ⟨r, st, true⟩ := by
          simp only [defaultStrategy, h200, Bool.false_eq_true, if_false]
        rw [hred]
        exact ⟨rfl, fun k => Or.inl rfl⟩

/-- C8 witness: a first successful asset fetch at the empty state leaves
the static store alone and the runtime store reads back the 200 response
only at the request's own key. -/
theorem C8_witness :
    (⟨assetOkResponse,
      { emptyCaches with
          runtimeStore :=
            cachePut emptyCaches.runtimeStore assetRequest.key
              assetOkResponse }, true⟩ :
        FetchOutcome).state.staticStore = emptyCaches.staticStore ∧
    ∀ k, cacheGet (⟨assetOkResponse,
      { emptyCaches with
          runtimeStore :=
            cachePut emptyCaches.runtimeStore assetRequest.key
              assetOkResponse }, true⟩ :
        FetchOutcome).state.runtimeStore k =
        cacheGet emptyCaches.runtimeStore k ∨
      (k = assetRequest.key ∧
        ∃ r, NetResult.ok assetOkResponse = NetResult.ok r ∧
          r.status = 200 ∧
          cacheGet (⟨assetOkResponse,
            { emptyCaches with
                runtimeStore :=
                  cachePut emptyCaches.runtimeStore assetRequest.key
                    assetOkResponse }, true⟩ :
              FetchOutcome).state.runtimeStore k = some r) :=
  C8_runtime_store_invariant assetRequest (.ok assetOkResponse) emptyCaches
    ⟨assetOkResponse,
      { emptyCaches with
          runtimeStore :=
            cachePut emptyCaches.runtimeStore assetRequest.key
              assetOkResponse }, true⟩ (by decide)

/-- C10: probe classification is substring containment, not exact hostname
match: any GET request over an http-prefixed scheme whose hostname merely
contains one of the seven probe domains — and which the earlier hotspot
branch does not capture — has `isCaptiveProbe` true, is classified as a
probe, and is handled network-only: the network response is passed through
untouched, and on network failure an empty 503 is returned, with no cache
read or write either way. -/
theorem C10_probe_substring_containment (req : Request) (msg : String)
    (st : CacheState)
    (hmethod : req.method = "GET")
    (hproto : strStartsWith req.url.protocol "http" = true)
    (hnothotspot : isHotspotURL req.url = false)
    (hsub : ∃ host ∈ probeHosts, jsIncludes req.url.hostname host = true) :
    isCaptiveProbe req.url = true ∧
    classify req = TrafficClass.probe ∧
    (∀ r, handleFetch req (.ok r) st = some ⟨r, st, true⟩) ∧
    handleFetch req (.err msg) st =
      some ⟨mkResponse "" 503 [], st, true⟩ := by
  have hprobe : isCaptiveProbe req.url = true := by
    unfold isCaptiveProbe
    exact List.any_eq_true.mpr hsub
  have hbne : (req.method != "GET") = false := by simp [hmethod]
  have hc : classify req = TrafficClass.probe := by
    simp [classify, hbne, hproto, hnothotspot, hprobe]
  refine ⟨hprobe, hc, ?_, ?_⟩
  · intro r; simp [handleFetch, hc, probeStrategy]
  · simp [handleFetch, hc, probeStrategy]

/-- C10 witness: the hostname `msftncsi.com.evil.example` is equal to no
probe domain, yet contains `msftncsi.com`; the request is classified as a
probe and answered network-only with an empty 503 on failure. -/
theorem C10_witness :
    evilProbeRequest.url.hostname ∉ probeHosts ∧
    (isCaptiveProbe evilProbeRequest.url = true ∧
     classify evilProbeRequest = TrafficClass.probe ∧
     (∀ r, handleFetch evilProbeRequest (.ok r) emptyCaches =
        some ⟨r, emptyCaches, true⟩) ∧
     handleFetch evilProbeRequest (.err "down") emptyCaches =
       some ⟨mkResponse "" 503 [], emptyCaches, true⟩) :=
  ⟨by decide,
   C10_probe_substring_containment evilProbeRequest "down" emptyCaches rfl
     (by decide) (by decide) (by decide)⟩

end WifiPortalSW
